import Mathlib

/-!
# Verification of the twitter-status-bot generation/caching pipeline

Shallow embedding of the core logic of the repository (src/bot/twitter.py,
src/bot/inline.py, src/bot/utils.py, src/bot/commands.py, src/bot/error.py,
src/bot/deletesticker.py) together with theorems settling the specification
claims about it.

External capabilities (Pillow font metrics, the textwrap2/hyphen wrapping
routine, the Telegram API) are abstracted as function parameters; the control
flow of the Python source is translated directly.
-/

namespace TwitterStatusBot

/-! ## Truncation sub-routine: `shorten_text` (src/bot/twitter.py lines 77-97)

Python:
```
(width, _), _ = font.font.getsize(text)
i = 0
short_text = text
while width > max_width:
    i += 1
    short_text = f"..."  -- text[:-i] followed by three dots
    (width, _), _ = font.font.getsize(short_text)
return short_text
```
The font metric `font.font.getsize` is abstracted as `fontWidth : String → Nat`
(only the width component is consulted).
-/

/-- Python slicing `text[:-i]` for `i ≥ 1`: the first `length - i` characters
(the empty string when `i ≥ length`). -/
def pyDropLast (text : String) (i : Nat) : String :=
  String.mk (text.data.take (text.data.length - i))

/-- The candidate string inspected by the `while` loop of `shorten_text` at
iteration `i`: the original text at `i = 0`, and `text[:-i] + "..."` for
`i ≥ 1`. -/
def shorten_candidate (text : String) (i : Nat) : String :=
  if i = 0 then text else pyDropLast text i ++ "..."

/-- The Python `while` loop of `shorten_text`, with explicit fuel: at step `i`
the loop exits returning the current candidate when its rendered width is
within `max_width`, otherwise it drops one more trailing character.  `none`
means the fuel ran out. -/
def shorten_loop (fontWidth : String → Nat) (max_width : Nat) (text : String) :
    Nat → Nat → Option String
  | 0, _ => none
  | fuel + 1, i =>
    let short := shorten_candidate text i
    if fontWidth short ≤ max_width then some short
    else shorten_loop fontWidth max_width text fuel (i + 1)

/-- `shorten_text` from src/bot/twitter.py.  Since for `i ≥ text.length` the
candidate is the constant string `"..."`, the Python loop terminates iff it
terminates within `text.length + 2` iterations; `none` therefore models
divergence of the Python loop. -/
def shorten_text (fontWidth : String → Nat) (max_width : Nat) (text : String) :
    Option String :=
  shorten_loop fontWidth max_width text (text.length + 2) 0

/-- The Python loop of `shorten_text` exits iff some iteration's candidate is
within the pixel budget. -/
def ShortenTerminates (fontWidth : String → Nat) (max_width : Nat) (text : String) : Prop :=
  ∃ i, fontWidth (shorten_candidate text i) ≤ max_width

theorem pyDropLast_of_le (text : String) {i : Nat} (h : text.length ≤ i) :
    pyDropLast text i = "" := by
  unfold pyDropLast
  have hlen : text.data.length - i = 0 := Nat.sub_eq_zero_of_le h
  rw [hlen, List.take_zero]

theorem shorten_candidate_of_le (text : String) {i : Nat} (h1 : 1 ≤ i)
    (h2 : text.length ≤ i) : shorten_candidate text i = "..." := by
  unfold shorten_candidate
  rw [if_neg (by omega), pyDropLast_of_le text h2]
  rfl

/-- If the loop returns a string, its rendered width is within the budget. -/
theorem shorten_loop_some_width {fontWidth : String → Nat} {max_width : Nat}
    {text : String} : ∀ {fuel i : Nat} {r : String},
    shorten_loop fontWidth max_width text fuel i = some r → fontWidth r ≤ max_width := by
  intro fuel
  induction fuel with
  | zero => intro i r h; simp [shorten_loop] at h
  | succ n ih =>
    intro i r h
    unfold shorten_loop at h
    by_cases hc : fontWidth (shorten_candidate text i) ≤ max_width
    · simp only [hc, if_pos] at h
      cases h
      exact hc
    · simp only [hc, if_neg, not_false_iff] at h
      exact ih h

/-- If some candidate within the remaining fuel fits the budget, the loop
returns a result. -/
theorem shorten_loop_some_of_candidate {fontWidth : String → Nat} {max_width : Nat}
    {text : String} : ∀ {fuel k i : Nat},
    k < fuel → fontWidth (shorten_candidate text (i + k)) ≤ max_width →
    (shorten_loop fontWidth max_width text fuel i).isSome := by
  intro fuel
  induction fuel with
  | zero => intro k i hk _; omega
  | succ n ih =>
    intro k i hk hfit
    unfold shorten_loop
    by_cases hc : fontWidth (shorten_candidate text i) ≤ max_width
    · simp [hc]
    · simp only [hc, if_neg, not_false_iff]
      rcases k with _ | k
      · simp at hfit
        exact absurd hfit hc
      · have : i + (k + 1) = (i + 1) + k := by omega
        rw [this] at hfit
        exact ih (by omega) hfit

/-- If the fueled loop gives up, no candidate reachable within the fuel fits. -/
theorem shorten_loop_none_candidate {fontWidth : String → Nat} {max_width : Nat}
    {text : String} : ∀ {fuel i : Nat},
    shorten_loop fontWidth max_width text fuel i = none →
    ∀ k < fuel, ¬ fontWidth (shorten_candidate text (i + k)) ≤ max_width := by
  intro fuel
  induction fuel with
  | zero => intro i _ k hk; omega
  | succ n ih =>
    intro i h k hk
    unfold shorten_loop at h
    by_cases hc : fontWidth (shorten_candidate text i) ≤ max_width
    · simp [hc] at h
    · simp only [hc, if_neg, not_false_iff] at h
      rcases k with _ | k
      · simpa using hc
      · have : i + (k + 1) = (i + 1) + k := by omega
        rw [this]
        exact ih h k (by omega)

/-- If no candidate ever fits, the loop returns `none` for every fuel. -/
theorem shorten_loop_none_of_all {fontWidth : String → Nat} {max_width : Nat}
    {text : String}
    (hall : ∀ i, ¬ fontWidth (shorten_candidate text i) ≤ max_width) :
    ∀ fuel i, shorten_loop fontWidth max_width text fuel i = none := by
  intro fuel
  induction fuel with
  | zero => intro i; rfl
  | succ m ihm =>
    intro i
    unfold shorten_loop
    simp only [hall i, if_neg, not_false_iff]
    exact ihm (i + 1)

/-- `shorten_text` returns `none` precisely when the Python loop diverges:
no iteration of the loop ever meets the exit condition. -/
theorem shorten_text_none_iff (fontWidth : String → Nat) (max_width : Nat)
    (text : String) :
    shorten_text fontWidth max_width text = none ↔
      ¬ ShortenTerminates fontWidth max_width text := by
  constructor
  · intro h ⟨i, hi⟩
    have hnone := shorten_loop_none_candidate h
    by_cases hcase : i < text.length + 2
    · exact hnone i hcase (by simpa using hi)
    · have h1 : 1 ≤ text.length + 1 := by omega
      have h2 : text.length ≤ text.length + 1 := by omega
      have hs1 : shorten_candidate text (text.length + 1) = "..." :=
        shorten_candidate_of_le text h1 h2
      have hs2 : shorten_candidate text i = "..." :=
        shorten_candidate_of_le text (by omega) (by omega)
      refine hnone (text.length + 1) (by omega) ?_
      rw [Nat.zero_add, hs1, ← hs2]
      exact hi
  · intro h
    have hall : ∀ i, ¬ fontWidth (shorten_candidate text i) ≤ max_width := by
      intro i hi
      exact h ⟨i, hi⟩
    exact shorten_loop_none_of_all hall _ _

/-- If the text already fits the budget, the loop body never runs and the text
is returned unchanged. -/
theorem shorten_text_within {fontWidth : String → Nat} {max_width : Nat}
    {text : String} (h : fontWidth text ≤ max_width) :
    shorten_text fontWidth max_width text = some text := by
  unfold shorten_text
  have heq : text.length + 2 = (text.length + 1) + 1 := rfl
  rw [heq]
  unfold shorten_loop
  simp [shorten_candidate, h]

/-- C8 (counterexample): the claim asserts termination for every input string,
pixel budget and font.  For the width function counting characters and budget
0, no iteration of the loop on input "ab" ever meets the exit condition
(every candidate, including the limiting constant "...", has positive width),
so the Python `while` loop diverges; the fuelled embedding returns `none`. -/
theorem shorten_text_divergence_cex :
    shorten_text (fun s => s.length) 0 "ab" = none ∧
      ¬ ShortenTerminates (fun s => s.length) 0 "ab" :=
  ⟨by decide, (shorten_text_none_iff (fun s => s.length) 0 "ab").mp (by decide)⟩

/-- C8 (amended): whenever the ellipsis string "..." fits the pixel budget
(true for every font/budget pair this program uses), or the input itself
already fits, `shorten_text` terminates and returns a string whose rendered
width is within the budget.  The loop drops exactly one trailing character per
iteration by construction of `shorten_loop`. -/
theorem shorten_text_total (fontWidth : String → Nat) (max_width : Nat)
    (text : String) (h : fontWidth "..." ≤ max_width ∨ fontWidth text ≤ max_width) :
    shorten_text fontWidth max_width text ≠ none ∧
      ∀ r, shorten_text fontWidth max_width text = some r → fontWidth r ≤ max_width := by
  constructor
  · rcases h with h | h
    · have hcand : fontWidth (shorten_candidate text (0 + (text.length + 1))) ≤ max_width := by
        rw [Nat.zero_add,
          shorten_candidate_of_le text (by omega) (by omega)]
        exact h
      have := @shorten_loop_some_of_candidate fontWidth max_width text
        (text.length + 2) (text.length + 1) 0 (by omega) hcand
      unfold shorten_text
      intro hn
      rw [hn] at this
      simp at this
    · rw [shorten_text_within h]
      simp
  · intro r hr
    exact shorten_loop_some_width hr

/-- C8 (witness). -/
theorem shorten_text_total_witness :
    shorten_text String.length 3 "abcdef" ≠ none ∧ String.length "..." ≤ 3 :=
  ⟨(shorten_text_total String.length 3 "abcdef" (Or.inl (by decide))).1,
    (shorten_text_total String.length 3 "abcdef" (Or.inl (by decide))).2 "..." (by decide)⟩

/-- C9: `shorten_text` is idempotent and stable: any string already within the
pixel budget (in particular any ellipsis-terminated output of `shorten_text`,
whose width is within budget by `shorten_loop_some_width`) is returned
unchanged, and re-truncating an output reproduces it.  Determinism of repeated
calls is immediate because the embedding is a pure function of its inputs. -/
theorem shorten_text_idempotent (fontWidth : String → Nat) (max_width : Nat)
    (text r : String) :
    (fontWidth text ≤ max_width → shorten_text fontWidth max_width text = some text) ∧
      (shorten_text fontWidth max_width text = some r →
        shorten_text fontWidth max_width r = some r) := by
  constructor
  · intro h
    exact shorten_text_within h
  · intro h
    exact shorten_text_within (shorten_loop_some_width h)

/-- C9 (witness). -/
theorem shorten_text_idempotent_witness :
    shorten_text String.length 5 "abc" = some "abc" ∧
      shorten_text String.length 3 "..." = some "..." :=
  ⟨(shorten_text_idempotent String.length 5 "abc" "abc").1 (by decide),
    (shorten_text_idempotent String.length 3 "abcdef" "...").2 (by decide)⟩

/-! ## Body layout: `build_body` (src/bot/twitter.py lines 278-343)

Font metrics (`BIG_TEXT_FONT.getsize`, `SMALL_TEXT_FONT.getsize`) and the
`textwrap2.fill` wrapping routine (with the `en_US` hyphenator) are abstracted
as parameters; `fill` returns `none` when wrapping raises, which `build_body`
re-raises as `HyphenationError` (modelled as the `none` result). -/

/-- Auxiliary substring search on character lists. -/
def substrAux (pat : List Char) : List Char → Bool
  | [] => pat.isEmpty
  | c :: t => pat.isPrefixOf (c :: t) || substrAux pat t

/-- Python substring containment `pat in s`. -/
def hasSubstr (s pat : String) : Bool :=
  substrAux pat.data s.data

/-- Auxiliary splitter on character lists: accumulates the current fragment. -/
def splitNlAux : List Char → List Char → List String
  | [], acc => [String.mk acc.reverse]
  | c :: t, acc =>
    if c == Char.ofNat 10 then String.mk acc.reverse :: splitNlAux t []
    else splitNlAux t (c :: acc)

/-- Python `text.split("\x0a")`: split at each newline character. -/
def pySplitNl (s : String) : List String :=
  splitNlAux s.data []

/-- The three layout strategies of `build_body`: one line in the big font, one
line in the small font, or wrapped multiline text in the small font. -/
inductive BodyLayout
  | bigLine (t : String)
  | smallLine (t : String)
  | multi (t : String)
deriving DecidableEq, Repr

/-- `max_chars_per_line` from `build_body`. -/
def max_chars_per_line : Nat := 26

/-- `max_pixels_per_line` from `build_body`. -/
def max_pixels_per_line : Nat := 450

/-- `build_body`: layout selection of src/bot/twitter.py lines 312-343.
`none` models raising `HyphenationError` (the `except` around `fill`). -/
def build_body (bigW smallW : String → Nat) (fill : Nat → String → Option String)
    (text : String) : Option BodyLayout :=
  if hasSubstr text "\n" then
    match (pySplitNl text).mapM (fill max_chars_per_line) with
    | some ls => some (BodyLayout.multi (String.intercalate "\n" ls))
    | none => none
  else if bigW text > max_pixels_per_line then
    if smallW text > max_pixels_per_line then
      (fill max_chars_per_line text).map BodyLayout.multi
    else some (BodyLayout.smallLine text)
  else some (BodyLayout.bigLine text)

/-! ## Errors and error handlers (src/bot/twitter.py lines 36-44, src/bot/error.py) -/

/-- The message of `HyphenationError` (src/bot/twitter.py lines 39-44). -/
def hyphenationMessage : String :=
  "Something went wrong trying to hyphenate your text. Please note that " ++
  "words may not be longer than 100 characters. Also, currently only " ++
  "English is properly supported for hyphenation."

/-- The message of the `RuntimeError` raised by `_check_event`
(src/bot/inline.py line 27 and src/bot/twitter.py line 50). -/
def cancelMessage : String := "Sticker creation terminated because event was set"

/-- The marker substring checked by `inline_thread`'s exception filter
(src/bot/inline.py line 75). -/
def cancelMarker : String := "Sticker creation terminated"

/-- The exception taxonomy visible to the handlers: `HyphenationError`,
`telegram.error.Forbidden`, `telegram.error.BadRequest`, the cancellation
`RuntimeError` of `_check_event`, and anything else. -/
inductive BotError
  | hyphenation
  | forbidden (msg : String)
  | badRequest (msg : String)
  | runtimeCancelled
  | other (msg : String)
deriving DecidableEq, Repr

/-- Python `str(exc)`. -/
def errStr : BotError → String
  | BotError.hyphenation => hyphenationMessage
  | BotError.forbidden m => m
  | BotError.badRequest m => m
  | BotError.runtimeCancelled => cancelMessage
  | BotError.other m => m

/-- Externally visible actions of the error handlers. -/
inductive HandlerAction
  | logError
  | answerEmptyWithButton
  | replyText (s : String)
  | notifyAdmin
deriving DecidableEq, Repr

/-- `hyphenation_error` (src/bot/error.py lines 19-38): replies the error
message to the triggering user (or shows a retry button on an inline query);
does nothing for non-hyphenation errors. -/
def hyphenation_error (err : Option BotError) (isUpdate isInlineQuery hasMessage : Bool) :
    List HandlerAction :=
  if !(err == some BotError.hyphenation) || !isUpdate then []
  else if isInlineQuery then [HandlerAction.answerEmptyWithButton]
  else if hasMessage then [HandlerAction.replyText (errStr BotError.hyphenation)]
  else []

/-- The early-return condition of `error` (src/bot/error.py lines 54-59):
hyphenation errors, `Forbidden`, stale-query `BadRequest`s and absent errors
are not escalated. -/
def errorSilenced : Option BotError → Bool
  | some BotError.hyphenation => true
  | some (BotError.forbidden _) => true
  | some (BotError.badRequest m) => hasSubstr m "Query is too old"
  | none => true
  | some BotError.runtimeCancelled => false
  | some (BotError.other _) => false

/-- `error` (src/bot/error.py lines 41-90): always logs; unless silenced,
informs the sender that something went wrong and forwards the traceback to the
admin. -/
def error_handler (err : Option BotError) (isUpdate hasMessage : Bool) :
    List HandlerAction :=
  HandlerAction.logError ::
    (if errorSilenced err then []
     else
       (if isUpdate && hasMessage then
          [HandlerAction.replyText "Something went wrong 😟. I informed the admin 🤓."]
        else []) ++ [HandlerAction.notifyAdmin])

/-- C3: layout strategy selection of `build_body`.  Without an explicit line
break, a text within the 450-pixel budget in the big font is laid out as one
big-font line; otherwise, within budget in the small font, as one small-font
line; otherwise it is wrapped at 26 characters per line with hyphenation.  Any
text containing a line break takes the wrapping path, each paragraph wrapped
independently and rejoined. -/
theorem build_body_layout_priority (bigW smallW : String → Nat)
    (fill : Nat → String → Option String) (text : String) :
    (hasSubstr text "\n" = false → bigW text ≤ 450 →
      build_body bigW smallW fill text = some (BodyLayout.bigLine text)) ∧
    (hasSubstr text "\n" = false → bigW text > 450 → smallW text ≤ 450 →
      build_body bigW smallW fill text = some (BodyLayout.smallLine text)) ∧
    (hasSubstr text "\n" = false → bigW text > 450 → smallW text > 450 →
      build_body bigW smallW fill text = (fill 26 text).map BodyLayout.multi) ∧
    (hasSubstr text "\n" = true →
      build_body bigW smallW fill text =
        ((pySplitNl text).mapM (fill 26)).map
          (fun ls => BodyLayout.multi (String.intercalate "\n" ls))) := by
  refine ⟨?_, ?_, ?_, ?_⟩
  · intro hn hb
    simp only [build_body, hn, Bool.false_eq_true, if_false, max_pixels_per_line]
    rw [if_neg (by omega)]
  · intro hn hb hs
    simp only [build_body, hn, Bool.false_eq_true, if_false, max_pixels_per_line]
    rw [if_pos (by omega), if_neg (by omega)]
  · intro hn hb hs
    simp only [build_body, hn, Bool.false_eq_true, if_false, max_pixels_per_line]
    rw [if_pos (by omega), if_pos (by omega)]
    rfl
  · intro hn
    simp only [build_body, hn, if_true, max_chars_per_line]
    cases hm : (pySplitNl text).mapM (fill 26) with
    | none => simp [hm]
    | some ls => simp [hm]

/-- C3 (witness). -/
theorem build_body_layout_priority_witness :
    build_body (fun s => 100 * s.length) (fun s => 50 * s.length)
        (fun _ s => some s) "hi" = some (BodyLayout.bigLine "hi") ∧
    build_body (fun s => 100 * s.length) (fun s => 50 * s.length)
        (fun _ s => some s) "abcdef" = some (BodyLayout.smallLine "abcdef") ∧
    build_body (fun s => 100 * s.length) (fun s => 50 * s.length)
        (fun _ s => some s) "abcdefghij" = some (BodyLayout.multi "abcdefghij") ∧
    build_body (fun s => 100 * s.length) (fun s => 50 * s.length)
        (fun _ s => some s) "a\nb" = some (BodyLayout.multi "a\nb") := by
  refine ⟨?_, ?_, ?_, ?_⟩
  · exact (build_body_layout_priority (fun s => 100 * s.length)
      (fun s => 50 * s.length) (fun _ s => some s) "hi").1 (by decide) (by decide)
  · exact (build_body_layout_priority (fun s => 100 * s.length)
      (fun s => 50 * s.length) (fun _ s => some s) "abcdef").2.1
      (by decide) (by decide) (by decide)
  · exact (build_body_layout_priority (fun s => 100 * s.length)
      (fun s => 50 * s.length) (fun _ s => some s) "abcdefghij").2.2.1
      (by decide) (by decide) (by decide)
  · exact (build_body_layout_priority (fun s => 100 * s.length)
      (fun s => 50 * s.length) (fun _ s => some s) "a\nb").2.2.2 (by decide)

/-- C6: `build_body` fails (raising `HyphenationError`, modelled by `none`)
exactly when the hyphenation/wrapping routine fails on the input; the
`hyphenation_error` handler surfaces the descriptive message verbatim to the
requesting user; the generic `error` handler never escalates it (no user-side
"Something went wrong" reply and no admin forwarding — only the log line), so
it is treated as user-correctable rather than a system fault.  It is the only
error the layout core can produce: the embedding's sole failure mode is the
wrapping failure. -/
theorem build_body_error_surfacing (bigW smallW : String → Nat)
    (fill : Nat → String → Option String) (text : String)
    (isUpdate hasMessage : Bool) :
    (build_body bigW smallW fill text = none ↔
      ((hasSubstr text "\n" = true ∧ (pySplitNl text).mapM (fill 26) = none) ∨
       (hasSubstr text "\n" = false ∧ bigW text > 450 ∧ smallW text > 450 ∧
         fill 26 text = none))) ∧
    hyphenation_error (some BotError.hyphenation) true false true =
      [HandlerAction.replyText hyphenationMessage] ∧
    error_handler (some BotError.hyphenation) isUpdate hasMessage =
      [HandlerAction.logError] := by
  refine ⟨?_, by rfl, by rfl⟩
  by_cases hn : hasSubstr text "\n"
  · simp only [build_body, hn, if_true, max_chars_per_line]
    cases hm : (pySplitNl text).mapM (fill 26) with
    | none => simp [hm, hn]
    | some ls => simp [hm, hn]
  · simp only [build_body, hn, Bool.false_eq_true, if_false, max_pixels_per_line,
      max_chars_per_line]
    rw [Bool.not_eq_true] at hn
    by_cases hb : bigW text > 450
    · rw [if_pos hb]
      by_cases hs : smallW text > 450
      · rw [if_pos hs]
        cases hf : fill 26 text with
        | none => simp [hf, hn, hb, hs]
        | some w => simp [hf, hn, hb, hs]
      · rw [if_neg hs]
        simp [hn, hs]
    · rw [if_neg hb]
      simp [hn, hb]

/-! ## Cancellable generation thread: `inline_thread` (src/bot/inline.py lines 24-76)

The thread polls the cancellation `Event` via `_check_event` before each
expensive step; a positive poll raises the cancellation `RuntimeError`.  The
surrounding `try/except` forwards an exception to
`context.dispatcher.dispatch_error` unless its string representation contains
the marker `"Sticker creation terminated"`. -/

/-- Environment of one `inline_thread` run: the value the cancellation event
polls return at the k-th `_check_event` call, and the outcomes of the three
external steps (building the sticker stream, sending it to the dumpster chat,
answering the inline query). -/
structure ThreadEnv where
  eventSetAt : Nat → Bool
  buildPhoto : Except BotError Unit
  sendSticker : Except BotError Unit
  answerQuery : Except BotError Unit

/-- Observable outcome of one `inline_thread` run: whether the inline query
was answered (a result delivered), whether the temporary file-id map was
written (the side effect preceding the third checkpoint), and which exception,
if any, was forwarded to the error dispatcher. -/
structure ThreadOutcome where
  answered : Bool
  storedTempId : Bool
  dispatched : Option BotError
deriving DecidableEq, Repr

/-- The `except` filter of `inline_thread` (src/bot/inline.py lines 74-76):
an exception is forwarded to `dispatch_error` unless `str(exc)` contains the
cancellation marker. -/
def dispatchFilter (e : BotError) : Option BotError :=
  if hasSubstr (errStr e) cancelMarker then none else some e

/-- `inline_thread` (src/bot/inline.py lines 30-76), as a function from the
run's environment to its observable outcome. -/
def inline_thread (env : ThreadEnv) : ThreadOutcome :=
  if env.eventSetAt 0 then
    { answered := false, storedTempId := false,
      dispatched := dispatchFilter BotError.runtimeCancelled }
  else
    match env.buildPhoto with
    | Except.error e =>
      { answered := false, storedTempId := false, dispatched := dispatchFilter e }
    | Except.ok _ =>
      if env.eventSetAt 1 then
        { answered := false, storedTempId := false,
          dispatched := dispatchFilter BotError.runtimeCancelled }
      else
        match env.sendSticker with
        | Except.error e =>
          { answered := false, storedTempId := false, dispatched := dispatchFilter e }
        | Except.ok _ =>
          if env.eventSetAt 2 then
            { answered := false, storedTempId := true,
              dispatched := dispatchFilter BotError.runtimeCancelled }
          else
            match env.answerQuery with
            | Except.error e =>
              { answered := false, storedTempId := true, dispatched := dispatchFilter e }
            | Except.ok _ =>
              { answered := true, storedTempId := true, dispatched := none }

/-- The cancellation `RuntimeError` is swallowed by the filter: its message
contains the marker. -/
theorem dispatchFilter_cancelled : dispatchFilter BotError.runtimeCancelled = none := by
  decide

/-- C7 (counterexample): the claim asserts that every exception other than the
cancellation outcome is forwarded to the error dispatcher.  The code filters
by the substring `"Sticker creation terminated"` of `str(exc)`, so an external
failure whose message happens to contain that marker is silently dropped even
though it is not the cancellation outcome: here `send_sticker` fails with such
a message, no event is ever set, and nothing is dispatched. -/
theorem inline_thread_dispatch_cex :
    inline_thread
        { eventSetAt := fun _ => false,
          buildPhoto := Except.ok (),
          sendSticker :=
            Except.error (BotError.other "Bad Request: Sticker creation terminated by server"),
          answerQuery := Except.ok () } =
      { answered := false, storedTempId := false, dispatched := none } ∧
    BotError.other "Bad Request: Sticker creation terminated by server" ≠
      BotError.runtimeCancelled := by
  exact ⟨by decide, by decide⟩

/-- C7 (amended): a generation task observing the cancellation flag at a
checkpoint aborts immediately: it performs no further side effects (in
particular, cancellation at the first two checkpoints leaves the temporary
file-id map untouched, and cancellation at the third keeps only the write made
before that poll), delivers no result, and its termination is not forwarded to
generic error handling.  Every other exception is forwarded to the error
dispatcher provided its string representation does not contain the marker
`"Sticker creation terminated"` (the code filters by that substring, not by
exception identity). -/
theorem inline_thread_cancellation (env : ThreadEnv) :
    (env.eventSetAt 0 = true →
      inline_thread env =
        { answered := false, storedTempId := false, dispatched := none }) ∧
    (env.eventSetAt 0 = false → env.buildPhoto = Except.ok () → env.eventSetAt 1 = true →
      inline_thread env =
        { answered := false, storedTempId := false, dispatched := none }) ∧
    (env.eventSetAt 0 = false → env.buildPhoto = Except.ok () → env.eventSetAt 1 = false →
      env.sendSticker = Except.ok () → env.eventSetAt 2 = true →
      inline_thread env =
        { answered := false, storedTempId := true, dispatched := none }) ∧
    (∀ e, env.eventSetAt 0 = false → env.buildPhoto = Except.error e →
      hasSubstr (errStr e) cancelMarker = false →
      inline_thread env =
        { answered := false, storedTempId := false, dispatched := some e }) ∧
    (∀ e, env.eventSetAt 0 = false → env.buildPhoto = Except.ok () →
      env.eventSetAt 1 = false → env.sendSticker = Except.error e →
      hasSubstr (errStr e) cancelMarker = false →
      inline_thread env =
        { answered := false, storedTempId := false, dispatched := some e }) ∧
    (∀ e, env.eventSetAt 0 = false → env.buildPhoto = Except.ok () →
      env.eventSetAt 1 = false → env.sendSticker = Except.ok () →
      env.eventSetAt 2 = false → env.answerQuery = Except.error e →
      hasSubstr (errStr e) cancelMarker = false →
      inline_thread env =
        { answered := false, storedTempId := true, dispatched := some e }) := by
  refine ⟨?_, ?_, ?_, ?_, ?_, ?_⟩
  · intro h0
    simp [inline_thread, h0, dispatchFilter_cancelled]
  · intro h0 hb h1
    simp [inline_thread, h0, hb, h1, dispatchFilter_cancelled]
  · intro h0 hb h1 hs h2
    simp [inline_thread, h0, hb, h1, hs, h2, dispatchFilter_cancelled]
  · intro e h0 hb hm
    simp [inline_thread, h0, hb, dispatchFilter, hm]
  · intro e h0 hb h1 hs hm
    simp [inline_thread, h0, hb, h1, hs, dispatchFilter, hm]
  · intro e h0 hb h1 hs h2 ha hm
    simp [inline_thread, h0, hb, h1, hs, h2, ha, dispatchFilter, hm]

/-- C7 (witness). -/
theorem inline_thread_cancellation_witness :
    inline_thread
        { eventSetAt := fun _ => true, buildPhoto := Except.ok (),
          sendSticker := Except.ok (), answerQuery := Except.ok () } =
      { answered := false, storedTempId := false, dispatched := none } ∧
    inline_thread
        { eventSetAt := fun _ => false,
          buildPhoto := Except.error BotError.hyphenation,
          sendSticker := Except.ok (), answerQuery := Except.ok () } =
      { answered := false, storedTempId := false,
        dispatched := some BotError.hyphenation } := by
  constructor
  · exact (inline_thread_cancellation
      { eventSetAt := fun _ => true, buildPhoto := Except.ok (),
        sendSticker := Except.ok (), answerQuery := Except.ok () }).1 (by decide)
  · exact (inline_thread_cancellation
      { eventSetAt := fun _ => false,
        buildPhoto := Except.error BotError.hyphenation,
        sendSticker := Except.ok (), answerQuery := Except.ok () }).2.2.2.1
      BotError.hyphenation (by decide) rfl (by decide)

/-! ## Per-user data and the header cache: `get_header` (src/bot/twitter.py lines 201-275) -/

/-- A Telegram photo reference: `file_id` (fetchable handle) and
`file_unique_id` (stable fingerprint). -/
structure PhotoInfo where
  file_id : String
  file_unique_id : String
deriving DecidableEq, Repr

/-- The observed Telegram user: id, full name, and optional username. -/
structure TgUser where
  id : Nat
  full_name : String
  username : Option String
deriving DecidableEq, Repr

/-- Modelled from the spec: the per-user record of `bot/userdata.py`
(class `UserData`), which is not under src/.  Its fields are reconstructed
from their uses in src/bot/twitter.py, src/bot/inline.py, src/bot/commands.py
and src/bot/deletesticker.py, and from §3 of the spec (`UserProfileSnapshot`
and `HeaderCacheEntry`): the stored snapshot (`full_name`, `username`,
`photo_file_unique_id`), the optional fallback picture, the stored sticker
references keyed by unique id, the temporary inline-result map, the
`store_stickers` preference, and the supervisor's thread/event handles
(modelled as identifiers). -/
structure UserData where
  full_name : Option String
  username : Option String
  photo_file_unique_id : Option String
  fallback_photo : Option PhotoInfo
  sticker_file_ids : List (String × String)
  temp_file_ids : List (String × String × String)
  store_stickers : Bool
  inline_query_thread : Option Nat
  inline_query_event : Option Nat
deriving DecidableEq, Repr

/-- Modelled from the spec: `UserData.update_user_info` of `bot/userdata.py`
is not under src/.  Per §3, the stored `UserProfileSnapshot` is "replaced
wholesale when any field changes": the call
`update_user_info(user, photo_file_unique_id=...)` overwrites the stored name,
handle and photo fingerprint with the observed values. -/
def update_user_info (ud : UserData) (user : TgUser) (photo_unique : Option String) :
    UserData :=
  { ud with
    full_name := some user.full_name
    username := user.username
    photo_file_unique_id := photo_unique }

/-- Python `a or b` for optional identifier strings (identifiers are non-empty,
so the only falsy value is `None`). -/
def pyOr (a b : Option String) : Option String :=
  match a with
  | some x => some x
  | none => b

/-- The reuse condition of `get_header` (src/bot/twitter.py lines 241-245):
stored full name, username, and photo fingerprint all equal the observed ones,
the observed fingerprint being the profile-photo unique id or, when absent,
the fallback-picture unique id. -/
def snapshot_matches (ud : UserData) (user : TgUser) (photo_unique : Option String) : Bool :=
  decide (ud.full_name = some user.full_name) &&
  decide (ud.username = user.username) &&
  decide (ud.photo_file_unique_id =
    pyOr photo_unique (ud.fallback_photo.map PhotoInfo.file_unique_id))

/-- Whether the header was returned from the per-user cache file or rebuilt
via `build_header` (which persists the new image, src/bot/twitter.py
line 197). -/
inductive HeaderSource
  | cached
  | rebuilt
deriving DecidableEq, Repr

/-- `get_header` (src/bot/twitter.py lines 201-275).  `profile_photo` is the
first platform profile photo if any; `cacheLoadOk` is whether
`Image.open` on the stored header file succeeds.  Returns the header source
and the updated user data. -/
def get_header (ud : UserData) (user : TgUser) (profile_photo : Option PhotoInfo)
    (cacheLoadOk : Bool) : HeaderSource × UserData :=
  let photo_unique := profile_photo.map PhotoInfo.file_unique_id
  let fallback_unique := ud.fallback_photo.map PhotoInfo.file_unique_id
  if snapshot_matches ud user photo_unique && cacheLoadOk then
    (HeaderSource.cached, ud)
  else
    let drop_stored_stickers := ! snapshot_matches ud user photo_unique
    let file_unique := pyOr photo_unique fallback_unique
    let ud1 := update_user_info ud user file_unique
    let ud2 := if drop_stored_stickers then { ud1 with sticker_file_ids := [] } else ud1
    (HeaderSource.rebuilt, ud2)

/-- C4: `get_header` serves the stored header without rebuilding iff the
stored snapshot (full name, username, photo fingerprint — the platform
profile-photo unique id, or the fallback-picture unique id when the former is
absent, per `snapshot_matches`/`pyOr`) equals the freshly observed one and the
cached image loads; on any mismatch or load failure the header is rebuilt
(and persisted, see `HeaderSource.rebuilt`). -/
theorem get_header_cached_iff (ud : UserData) (user : TgUser)
    (photo : Option PhotoInfo) (ok : Bool) :
    ((get_header ud user photo ok).1 = HeaderSource.cached ↔
      snapshot_matches ud user (photo.map PhotoInfo.file_unique_id) = true ∧ ok = true) ∧
    ((get_header ud user photo ok).1 = HeaderSource.rebuilt ↔
      ¬ (snapshot_matches ud user (photo.map PhotoInfo.file_unique_id) = true ∧ ok = true)) := by
  by_cases hc : snapshot_matches ud user (photo.map PhotoInfo.file_unique_id) && ok
  · rw [Bool.and_eq_true] at hc
    constructor
    · simp [get_header, hc.1, hc.2]
    · simp [get_header, hc.1, hc.2]
  · rw [Bool.and_eq_true] at hc
    constructor
    · simp only [get_header]
      rw [if_neg (by rw [Bool.and_eq_true]; exact hc)]
      simp only [iff_false_intro hc]
      constructor
      · intro h
        exact absurd h.symm (by simp)
      · intro h
        exact absurd h (by simp [hc])
    · simp only [get_header]
      rw [if_neg (by rw [Bool.and_eq_true]; exact hc)]
      simp [hc]

/-- C5: during `get_header`, the stored generated-sticker references are
cleared iff the observed snapshot differs from the stored one; a rebuild
caused only by a cache-load failure (snapshot unchanged) leaves them intact.
The clearing happens exactly once per call: the resulting map is a function of
the match flag alone. -/
theorem get_header_invalidation (ud : UserData) (user : TgUser)
    (photo : Option PhotoInfo) (ok : Bool) :
    (get_header ud user photo ok).2.sticker_file_ids =
      (if snapshot_matches ud user (photo.map PhotoInfo.file_unique_id) = true then
        ud.sticker_file_ids
      else []) := by
  by_cases hm : snapshot_matches ud user (photo.map PhotoInfo.file_unique_id) = true
  · rw [if_pos hm]
    by_cases hok : ok = true
    · simp [get_header, hm, hok]
    · rw [Bool.not_eq_true] at hok
      simp [get_header, hm, hok, update_user_info]
  · rw [if_neg hm]
    rw [Bool.not_eq_true] at hm
    simp [get_header, hm, update_user_info]

/-! ## Supersede-on-arrival submission: `inline` (src/bot/inline.py lines 79-113) -/

/-- Caller-side actions of `inline`, in program order.  `joinThread t` is
`thread.join()`: the submitting caller blocks until thread `t` terminates. -/
inductive InlineAction
  | setEvent (e : Nat)
  | joinThread (t : Nat)
  | startThread (t : Nat)
  | answerStored
deriving DecidableEq, Repr

/-- `inline` (src/bot/inline.py lines 79-113): for a non-empty query, if a
registered thread is still alive, set its event and `join()` it, then create a
fresh event, start a fresh thread and register both; for an empty query,
answer with the stored stickers.  `alive` abstracts `Thread.is_alive`;
`freshEvent`/`freshThread` are the identities of the newly created event and
thread.  Returns the updated user data and the caller's action trace. -/
def inline (ud : UserData) (query : String) (alive : Nat → Bool)
    (freshEvent freshThread : Nat) : UserData × List InlineAction :=
  if query.isEmpty then
    (ud, [InlineAction.answerStored])
  else
    let pre : List InlineAction :=
      match ud.inline_query_thread with
      | some t =>
        if alive t then
          [InlineAction.setEvent (ud.inline_query_event.getD 0), InlineAction.joinThread t]
        else []
      | none => []
    let ud1 := { ud with
      inline_query_event := some freshEvent
      inline_query_thread := some freshThread }
    (ud1, pre ++ [InlineAction.startThread freshThread])

/-- C1 (counterexample): the claim asserts that the submitting caller does not
wait for the superseded task to terminate.  With a live registered thread (id
1, event 7) and a non-empty query, the caller's trace sets the event and then
performs `joinThread 1` — blocking on the old thread's teardown — before the
new thread is started. -/
theorem inline_join_blocks_cex :
    (inline
        { full_name := none, username := none, photo_file_unique_id := none,
          fallback_photo := none, sticker_file_ids := [], temp_file_ids := [],
          store_stickers := true, inline_query_thread := some 1,
          inline_query_event := some 7 }
        "hi" (fun _ => true) 2 5).2 =
      [InlineAction.setEvent 7, InlineAction.joinThread 1, InlineAction.startThread 5] ∧
    InlineAction.joinThread 1 ∈
      (inline
        { full_name := none, username := none, photo_file_unique_id := none,
          fallback_photo := none, sticker_file_ids := [], temp_file_ids := [],
          store_stickers := true, inline_query_thread := some 1,
          inline_query_event := some 7 }
        "hi" (fun _ => true) 2 5).2 := by
  exact ⟨by decide, by decide⟩

/-- C1 (amended): on a non-empty query with a live in-flight task for the same
user, `inline` sets the old task's cancellation event and then *joins* the old
thread — the submitting caller waits for the superseded task to terminate —
before starting and registering the new task. -/
theorem inline_supersede (ud : UserData) (query : String) (alive : Nat → Bool)
    (e t freshEvent freshThread : Nat) (hq : query.isEmpty = false)
    (ht : ud.inline_query_thread = some t) (halive : alive t = true)
    (he : ud.inline_query_event = some e) :
    (inline ud query alive freshEvent freshThread).2 =
      [InlineAction.setEvent e, InlineAction.joinThread t,
        InlineAction.startThread freshThread] ∧
    (inline ud query alive freshEvent freshThread).1.inline_query_thread =
      some freshThread ∧
    (inline ud query alive freshEvent freshThread).1.inline_query_event =
      some freshEvent := by
  refine ⟨?_, ?_, ?_⟩
  · simp [inline, hq, ht, halive, he]
  · simp [inline, hq]
  · simp [inline, hq]

/-- C1 (witness). -/
theorem inline_supersede_witness :
    (inline
        { full_name := none, username := none, photo_file_unique_id := none,
          fallback_photo := none, sticker_file_ids := [], temp_file_ids := [],
          store_stickers := true, inline_query_thread := some 3,
          inline_query_event := some 4 }
        "q" (fun _ => true) 8 9).2 =
      [InlineAction.setEvent 4, InlineAction.joinThread 3, InlineAction.startThread 9] :=
  (inline_supersede
    { full_name := none, username := none, photo_file_unique_id := none,
      fallback_photo := none, sticker_file_ids := [], temp_file_ids := [],
      store_stickers := true, inline_query_thread := some 3,
      inline_query_event := some 4 }
    "q" (fun _ => true) 4 3 8 9 (by decide) rfl rfl rfl).1

/-! ## Single-slot artifact registry: `clean_sticker_set` and `get_sticker_id`
(src/bot/utils.py lines 38-121)

The external Telegram sticker set is an ordered list; `none` models a set that
has not been created yet.  `get_sticker_set` lazily creates the set with the
seed logo sticker; deleting an absent sticker is a no-op (the
`Stickerset_not_modified` branch). -/

/-- A sticker as listed in a sticker set. -/
structure TgSticker where
  file_unique_id : String
  file_id : String
deriving DecidableEq, Repr

/-- `bot.delete_sticker_from_set`: removes the sticker with the given
`file_id`; removing an absent one changes nothing. -/
def delete_sticker_from_set (file_id : String) (s : List TgSticker) : List TgSticker :=
  s.filter (fun st => !(st.file_id == file_id))

/-- `get_sticker_set` (src/bot/utils.py lines 38-60): fetch the set, creating
it with the seed logo sticker when the name is invalid (set absent).  Returns
the listing; afterwards the set exists with exactly that listing. -/
def get_sticker_set (seed : TgSticker) : Option (List TgSticker) → List TgSticker
  | some s => s
  | none => [seed]

/-- `clean_sticker_set` (src/bot/utils.py lines 63-85): fetch the set and, if
it lists more than one sticker, delete every sticker after the first.
Returns the listing after cleaning. -/
def clean_sticker_set (seed : TgSticker) (store : Option (List TgSticker)) :
    List TgSticker :=
  let stickers := get_sticker_set seed store
  if stickers.length > 1 then
    (stickers.drop 1).foldl (fun acc st => delete_sticker_from_set st.file_id acc) stickers
  else stickers

/-- `get_sticker_id` (src/bot/utils.py lines 88-121): clean the set, ensure it
exists, append the freshly built sticker, re-fetch, and return the new listing
together with the unique id and file id of its last element. -/
def get_sticker_id (seed new_sticker : TgSticker) (store : Option (List TgSticker)) :
    List TgSticker × (String × String) :=
  let s1 := clean_sticker_set seed store
  let s2 := get_sticker_set seed (some s1)
  let s3 := s2 ++ [new_sticker]
  let s4 := get_sticker_set seed (some s3)
  let last := s4.getLastD seed
  (s4, (last.file_unique_id, last.file_id))

/-- N sequential publish-and-cleanup cycles (each cycle is one
`get_sticker_id` call) starting from the given external state. -/
def publish_cycles (seed : TgSticker) (arts : List TgSticker)
    (store : Option (List TgSticker)) : Option (List TgSticker) :=
  arts.foldl (fun st a => some (get_sticker_id seed a st).1) store

/-- One cycle from a not-yet-created slot: the listing afterwards holds the
seed and the published artifact. -/
theorem get_sticker_id_from_none (seed a : TgSticker) :
    (get_sticker_id seed a none).1 = [seed, a] := by
  simp [get_sticker_id, clean_sticker_set, get_sticker_set]

/-- One cycle from a slot holding the seed and one older artifact: the older
artifact is deleted and the listing afterwards holds the seed and the new
artifact. -/
theorem get_sticker_id_step (seed b a : TgSticker) (hb : b.file_id ≠ seed.file_id) :
    (get_sticker_id seed a (some [seed, b])).1 = [seed, a] := by
  simp only [get_sticker_id, clean_sticker_set, get_sticker_set, List.length_cons,
    List.length_nil, gt_iff_lt, List.drop_succ_cons, List.drop_zero, List.foldl_cons,
    List.foldl_nil, delete_sticker_from_set, List.filter]
  have h1 : (seed.file_id == b.file_id) = false := by
    rw [beq_eq_false_iff_ne]
    exact fun h => hb h.symm
  have h2 : (b.file_id == b.file_id) = true := beq_self_eq_true b.file_id
  simp [h1, h2]

/-- Auxiliary induction for `publish_cycles`: from an uncreated slot or one in
the canonical two-element shape, each cycle re-establishes the shape with the
newest artifact in second position. -/
theorem publish_cycles_aux (seed : TgSticker) :
    ∀ (arts : List TgSticker) (store : Option (List TgSticker)) (a : TgSticker),
    arts.getLast? = some a →
    (∀ x ∈ arts, x.file_id ≠ seed.file_id) →
    (store = none ∨ ∃ b, store = some [seed, b] ∧ b.file_id ≠ seed.file_id) →
    publish_cycles seed arts store = some [seed, a] := by
  intro arts
  induction arts with
  | nil => intro store a ha _ _; simp at ha
  | cons c rest ih =>
    intro store a ha hid hinv
    have hstep : (get_sticker_id seed c store).1 = [seed, c] := by
      rcases hinv with hnone | ⟨b, hsome, hb⟩
      · rw [hnone]
        exact get_sticker_id_from_none seed c
      · rw [hsome]
        exact get_sticker_id_step seed b c hb
    have hstore2 : publish_cycles seed (c :: rest) store =
        publish_cycles seed rest (some (get_sticker_id seed c store).1) := rfl
    rw [hstore2, hstep]
    cases rest with
    | nil =>
      simp at ha
      subst ha
      rfl
    | cons d rest2 =>
      have ha2 : (d :: rest2).getLast? = some a := by
        rw [← ha]
        exact List.getLast?_cons_cons.symm
      refine ih (some [seed, c]) a ha2 ?_ ?_
      · intro x hx
        exact hid x (List.mem_cons_of_mem c hx)
      · exact Or.inr ⟨c, rfl, hid c (List.mem_cons_self c (d :: rest2))⟩

/-- C2 (counterexample): the claim asserts that after a publish-and-cleanup
cycle the slot's listing contains exactly one reference, the most recently
published artifact.  After one cycle from a fresh slot the listing contains
two references — the seed logo sticker (which `clean_sticker_set` always
keeps, since it deletes all but the *first* sticker) and the new artifact. -/
theorem publish_cycle_two_refs_cex :
    publish_cycles { file_unique_id := "logo_u", file_id := "logo_f" }
        [{ file_unique_id := "a1_u", file_id := "a1_f" }] none =
      some [{ file_unique_id := "logo_u", file_id := "logo_f" },
        { file_unique_id := "a1_u", file_id := "a1_f" }] ∧
    (publish_cycles { file_unique_id := "logo_u", file_id := "logo_f" }
        [{ file_unique_id := "a1_u", file_id := "a1_f" }] none).map List.length =
      some 2 := by
  exact ⟨by decide, by decide⟩

/-- C2 (amended): for every N ≥ 1, after N sequential publish-and-cleanup
cycles (with artifact file ids distinct from the seed's) the slot's listing
contains exactly two references: the seed logo sticker in first position —
cleanup retains the first listed sticker, not the newest — and the most
recently published artifact in second position; all older published artifacts
are removed. -/
theorem publish_cycles_listing (seed a : TgSticker) (arts : List TgSticker)
    (ha : arts.getLast? = some a)
    (hid : ∀ x ∈ arts, x.file_id ≠ seed.file_id) :
    publish_cycles seed arts none = some [seed, a] :=
  publish_cycles_aux seed arts none a ha hid (Or.inl rfl)

/-- C2 (witness). -/
theorem publish_cycles_listing_witness :
    publish_cycles { file_unique_id := "logo_u", file_id := "logo_f" }
        [{ file_unique_id := "a1_u", file_id := "a1_f" },
          { file_unique_id := "a2_u", file_id := "a2_f" }] none =
      some [{ file_unique_id := "logo_u", file_id := "logo_f" },
        { file_unique_id := "a2_u", file_id := "a2_f" }] :=
  publish_cycles_listing { file_unique_id := "logo_u", file_id := "logo_f" }
    { file_unique_id := "a2_u", file_id := "a2_f" }
    [{ file_unique_id := "a1_u", file_id := "a1_f" },
      { file_unique_id := "a2_u", file_id := "a2_f" }]
    (by decide) (by decide)

/-! ## Sticker-storage operations and the storage invariant
(src/bot/commands.py lines 14-29 and 79-96, src/bot/inline.py lines 115-130,
src/bot/deletesticker.py lines 46-69) -/

/-- Python `dict` assignment `d[k] = v` on an ordered association list:
update in place if the key exists, else append. -/
def insertAssoc (k v : String) (m : List (String × String)) : List (String × String) :=
  if m.any (fun p => p.1 == k) then
    m.map (fun p => if p.1 == k then (k, v) else p)
  else m ++ [(k, v)]

/-- Python `temp_dict.get(result_id)` on the temporary inline-result map. -/
def lookupTemp (k : String) (m : List (String × String × String)) :
    Option (String × String) :=
  match m.find? (fun p => p.1 == k) with
  | some p => some p.2
  | none => none

/-- `toggle_store_stickers` (src/bot/commands.py lines 79-96): turning storage
off clears the stored stickers in the same operation; turning it on changes
only the flag. -/
def toggle_store_stickers (ud : UserData) : UserData :=
  if ud.store_stickers then
    { ud with sticker_file_ids := [], store_stickers := false }
  else
    { ud with store_stickers := true }

/-- `sticker_message` (src/bot/commands.py lines 14-29), restricted to its
effect on user data: the freshly sent sticker is recorded iff
`store_stickers` is set. -/
def sticker_message (ud : UserData) (file_unique_id file_id : String) : UserData :=
  if ud.store_stickers then
    { ud with sticker_file_ids := insertAssoc file_unique_id file_id ud.sticker_file_ids }
  else ud

/-- `handle_chosen_inline_result` (src/bot/inline.py lines 115-130): for a
result id not prefixed by "tweet", record the cached temporary sticker iff it
is present and `store_stickers` is set, then clear the temporary map. -/
def handle_chosen_inline_result (ud : UserData) (result_id : String) : UserData :=
  if result_id.startsWith "tweet" then ud
  else
    let cached := lookupTemp result_id ud.temp_file_ids
    let ud1 :=
      match cached with
      | some c =>
        if ud.store_stickers then
          { ud with sticker_file_ids := insertAssoc c.1 c.2 ud.sticker_file_ids }
        else ud
      | none => ud
    { ud1 with temp_file_ids := [] }

/-- `handle_sticker` of the delete-sticker conversation
(src/bot/deletesticker.py line 60): `sticker_file_ids.pop(uid, None)`. -/
def delete_sticker (ud : UserData) (file_unique_id : String) : UserData :=
  { ud with
    sticker_file_ids := ud.sticker_file_ids.filter (fun p => !(p.1 == file_unique_id)) }

/-- The user-data operations that touch `sticker_file_ids` or
`store_stickers`. -/
inductive UserOp
  | toggleStoreStickers
  | stickerMessage (file_unique_id file_id : String)
  | chosenInlineResult (result_id : String)
  | deleteSticker (file_unique_id : String)
  | getHeader (user : TgUser) (photo : Option PhotoInfo) (cacheLoadOk : Bool)

/-- Apply one operation to the user data. -/
def applyUserOp (op : UserOp) (ud : UserData) : UserData :=
  match op with
  | UserOp.toggleStoreStickers => toggle_store_stickers ud
  | UserOp.stickerMessage u f => sticker_message ud u f
  | UserOp.chosenInlineResult r => handle_chosen_inline_result ud r
  | UserOp.deleteSticker u => delete_sticker ud u
  | UserOp.getHeader user photo ok => (get_header ud user photo ok).2

/-- The implicit storage invariant: with storage disabled, no sticker
references are stored. -/
def StickerStoreInvariant (ud : UserData) : Prop :=
  ud.store_stickers = false → ud.sticker_file_ids = []

/-- C10: every operation preserves the invariant that a user with
`store_stickers = false` has an empty `sticker_file_ids` map: disabling
storage clears the map in the same operation, the two recording operations
insert only when `store_stickers` is set, and the remaining operations only
remove entries. -/
theorem stickerStoreInvariant_preserved (op : UserOp) (ud : UserData)
    (h : StickerStoreInvariant ud) : StickerStoreInvariant (applyUserOp op ud) := by
  cases op with
  | toggleStoreStickers =>
    intro hoff
    by_cases hs : ud.store_stickers
    · simp [applyUserOp, toggle_store_stickers, hs]
    · simp only [applyUserOp, toggle_store_stickers, hs, Bool.false_eq_true, if_false] at hoff
      simp at hoff
  | stickerMessage u f =>
    intro hoff
    by_cases hs : ud.store_stickers
    · exfalso
      have hflag : (applyUserOp (UserOp.stickerMessage u f) ud).store_stickers = true := by
        simp [applyUserOp, sticker_message, hs]
      rw [hoff] at hflag
      exact Bool.false_ne_true hflag
    · have heq : applyUserOp (UserOp.stickerMessage u f) ud = ud := by
        simp [applyUserOp, sticker_message, hs]
      rw [heq] at hoff ⊢
      exact h hoff
  | chosenInlineResult r =>
    intro hoff
    by_cases ht : r.startsWith "tweet"
    · have heq : applyUserOp (UserOp.chosenInlineResult r) ud = ud := by
        simp [applyUserOp, handle_chosen_inline_result, ht]
      rw [heq] at hoff ⊢
      exact h hoff
    · cases hc : lookupTemp r ud.temp_file_ids with
      | none =>
        have heq : applyUserOp (UserOp.chosenInlineResult r) ud =
            { ud with temp_file_ids := [] } := by
          simp [applyUserOp, handle_chosen_inline_result, ht, hc]
        rw [heq] at hoff ⊢
        exact h hoff
      | some c =>
        by_cases hs : ud.store_stickers
        · exfalso
          have hflag : (applyUserOp (UserOp.chosenInlineResult r) ud).store_stickers =
              true := by
            simp [applyUserOp, handle_chosen_inline_result, ht, hc, hs]
          rw [hoff] at hflag
          exact Bool.false_ne_true hflag
        · have heq : applyUserOp (UserOp.chosenInlineResult r) ud =
              { ud with temp_file_ids := [] } := by
            simp [applyUserOp, handle_chosen_inline_result, ht, hc, hs]
          rw [heq] at hoff ⊢
          exact h hoff
  | deleteSticker u =>
    intro hoff
    simp only [applyUserOp, delete_sticker] at hoff ⊢
    rw [h hoff]
    rfl
  | getHeader user photo ok =>
    intro hoff
    have hflag : (applyUserOp (UserOp.getHeader user photo ok) ud).store_stickers =
        ud.store_stickers := by
      simp only [applyUserOp, get_header]
      by_cases hc : snapshot_matches ud user (photo.map PhotoInfo.file_unique_id) &&
          ok
      · rw [if_pos hc]
      · rw [if_neg hc]
        by_cases hd : snapshot_matches ud user (photo.map PhotoInfo.file_unique_id)
        · simp [hd, update_user_info]
        · simp [hd, update_user_info]
    rw [hflag] at hoff
    have := get_header_invalidation ud user photo ok
    simp only [applyUserOp]
    rw [this]
    by_cases hm : snapshot_matches ud user (photo.map PhotoInfo.file_unique_id) = true
    · rw [if_pos hm]
      exact h hoff
    · rw [if_neg hm]

/-- C10 (witness). -/
theorem stickerStoreInvariant_preserved_witness :
    StickerStoreInvariant (applyUserOp UserOp.toggleStoreStickers
      { full_name := none, username := none, photo_file_unique_id := none,
        fallback_photo := none, sticker_file_ids := [], temp_file_ids := [],
        store_stickers := false, inline_query_thread := none,
        inline_query_event := none }) :=
  stickerStoreInvariant_preserved UserOp.toggleStoreStickers
    { full_name := none, username := none, photo_file_unique_id := none,
      fallback_photo := none, sticker_file_ids := [], temp_file_ids := [],
      store_stickers := false, inline_query_thread := none,
      inline_query_event := none }
    (fun _ => rfl)
